import Mathlib

/-
  Shallow embedding of bustard/orm.py: a small declarative ORM.
  Python values are modelled by PyVal, Python exceptions by PyError,
  and fallible Python code returns Except PyError.  Dictionaries
  (instance __dict__, OrderedDict) are association lists updated with
  odUpdate, which keeps the position of an existing key, as Python
  dictionaries do.
-/

namespace Bustard

/-- Universe of the Python values this module stores in fields and rows. -/
inductive PyVal
  | none
  | int (n : Int)
  | str (s : String)
  | bool (b : Bool)
  deriving DecidableEq, Repr

/-- Python truthiness for the values of PyVal. -/
def pyTruthy : PyVal → Bool
  | PyVal.none => false
  | PyVal.int n => n != 0
  | PyVal.str s => s != ""
  | PyVal.bool b => b

/-- Rendering by str() for the values of PyVal. -/
def pyStr : PyVal → String
  | PyVal.none => "None"
  | PyVal.int n => toString n
  | PyVal.str s => s
  | PyVal.bool b => if b then "True" else "False"

/-- Python exceptions reachable from the modelled code.  The constructor
missingPrimaryKeyError models the MissingPrimaryKeyError named by the
documentation of the repository; the source never defines or raises it,
the constructor exists only so that statements about it can be written. -/
inductive PyError
  | attributeError (a : String)
  | keyError (k : String)
  | typeError (msg : String)
  | indexError (n : Nat)
  | missingPrimaryKeyError
  deriving DecidableEq, Repr

/-- Truthiness of an optional string, as used for the optional
ON UPDATE / ON DELETE keywords. -/
def strOptTruthy : Option String → Bool
  | Option.none => false
  | Option.some s => s != ""

/-- Python str.join: sep.join(parts). -/
def joinSep (sep : String) : List String → String
  | [] => ""
  | [x] => x
  | x :: y :: xs => x ++ sep ++ joinSep sep (y :: xs)

/-- Assignment d[k] = v on an insertion-ordered dictionary: an existing
key keeps its position and gets the new value, a new key is appended. -/
def odUpdate {α : Type} (d : List (String × α)) (k : String) (v : α) : List (String × α) :=
  if d.any (fun p => p.1 == k) then d.map (fun p => if p.1 == k then (k, v) else p)
  else d ++ [(k, v)]

/-- Dictionary lookup d.get(k). -/
def dictGet {α : Type} (d : List (String × α)) (k : String) : Option α :=
  (d.find? (fun p => p.1 == k)).map (fun p => p.2)

/-- Number of occurrences of the positional placeholder, the two
characters percent and s, in a character list. -/
def countPS : List Char → Nat
  | '%' :: 's' :: rest => countPS rest + 1
  | _ :: rest => countPS rest
  | [] => 0

/-- Opening brace character, written by code so that brace pairing in
string scans stays simple. -/
def lbrace : Char := Char.ofNat 123

/-- Closing brace character. -/
def rbrace : Char := Char.ofNat 125

/-- One piece of a Python str.format template: literal text, an
attribute access on the automatic positional argument, or a keyword
replacement field. -/
inductive FmtPart
  | lit (s : String)
  | posAttr (a : String)
  | kwarg (k : String)
  deriving DecidableEq, Repr

/-- Classify the text found between braces in a format template: a
leading dot means attribute access on the automatic positional
argument, anything else is a keyword replacement field. -/
def specPart (spec : List Char) : FmtPart :=
  match spec with
  | '.' :: attr => FmtPart.posAttr (String.mk attr)
  | s => FmtPart.kwarg (String.mk s)

mutual

/-- Parse a str.format template into parts, scanning for braces. -/
def parseFmtAux : List Char → List FmtPart
  | [] => []
  | c :: rest =>
    if c = lbrace then parseSpec rest []
    else FmtPart.lit (String.mk [c]) :: parseFmtAux rest

/-- Collect the characters of a replacement field up to the closing brace. -/
def parseSpec : List Char → List Char → List FmtPart
  | [], acc => [specPart acc.reverse]
  | c :: rest, acc =>
    if c = rbrace then specPart acc.reverse :: parseFmtAux rest
    else parseSpec rest (c :: acc)

end

/-- Column constraint describing a reference to another table, as the
ForeignKey class stores it after parsing table.column. -/
structure ForeignKey where
  table_name : String
  column_name : String
  onupdate : Option String
  ondelete : Option String

/-- ForeignKey.to_sql: the REFERENCES clause with optional actions. -/
def ForeignKey.to_sql (fk : ForeignKey) : String :=
  let sql := "REFERENCES " ++ fk.table_name ++ " (" ++ fk.column_name ++ ")"
  let sql := if strOptTruthy fk.onupdate then sql ++ " ON UPDATE " ++ fk.onupdate.getD "" else sql
  if strOptTruthy fk.ondelete then sql ++ " ON DELETE " ++ fk.ondelete.getD "" else sql

/-- The Field subclasses of the source, one tag per SQL data type. -/
inductive FieldKind
  | text
  | char
  | integer
  | date
  | datetime
  | boolean
  | uuid
  | json
  | auto
  deriving DecidableEq, Repr

/-- The data_type class attribute of each Field subclass. -/
def dataType : FieldKind → String
  | FieldKind.text => "text"
  | FieldKind.char => "varchar"
  | FieldKind.integer => "integer"
  | FieldKind.date => "date"
  | FieldKind.datetime => "timestamp"
  | FieldKind.boolean => "boolean"
  | FieldKind.uuid => "uuid"
  | FieldKind.json => "json"
  | FieldKind.auto => "serial"

/-- isinstance(self, TextField): TextField itself and its subclass CharField. -/
def isTextField : FieldKind → Bool
  | FieldKind.text => true
  | FieldKind.char => true
  | _ => false

/-- The default argument of Field.__init__: absent (None), a plain
value, or a zero-argument callable. -/
inductive DefaultSpec
  | noneD
  | lit (v : PyVal)
  | producer (g : Unit → PyVal)

/-- A Field as Field.__init__ stores it, before the declaring model
attaches it: the column name may still be absent. -/
structure FieldSpec where
  kind : FieldKind
  name : Option String
  max_length : Option Nat
  default : DefaultSpec
  server_default : PyVal
  unique : Bool
  nullable : Bool
  index : Bool
  primary_key : Bool
  foreign_key : Option ForeignKey

/-- Field.__init__: stores its arguments; a boolean server_default is
replaced by str(server_default).upper(), that is TRUE or FALSE. -/
def FieldSpec.init (kind : FieldKind) (name : Option String) (max_length : Option Nat)
    (default : DefaultSpec) (server_default : PyVal)
    (unique nullable index primary_key : Bool)
    (foreign_key : Option ForeignKey) : FieldSpec :=
  { kind := kind, name := name, max_length := max_length, default := default,
    server_default :=
      match server_default with
      | PyVal.bool b => PyVal.str (if b then "TRUE" else "FALSE")
      | v => v,
    unique := unique, nullable := nullable, index := index,
    primary_key := primary_key, foreign_key := foreign_key }

/-- A Field after model declaration attached it: _auto_column_name has
fixed the attribute name (stored in attrName for _name) and the column
name, and _collect_fields has set table_name and sql_column. -/
structure Field where
  kind : FieldKind
  name : String
  attrName : String
  max_length : Option Nat
  default : DefaultSpec
  server_default : PyVal
  unique : Bool
  nullable : Bool
  index : Bool
  primary_key : Bool
  foreign_key : Option ForeignKey
  table_name : String
  sql_column : String

/-- The attachment performed at class declaration: _auto_column_name
sets _name to the declaration attribute and the column name to the
explicit name or the attribute, and _collect_fields sets table_name and
sql_column to table.column. -/
def FieldSpec.attach (s : FieldSpec) (attr table : String) : Field :=
  let n := match s.name with | Option.some nm => nm | Option.none => attr
  { kind := s.kind, name := n, attrName := attr, max_length := s.max_length,
    default := s.default, server_default := s.server_default, unique := s.unique,
    nullable := s.nullable, index := s.index, primary_key := s.primary_key,
    foreign_key := s.foreign_key, table_name := table,
    sql_column := table ++ "." ++ n }

/-- Field.default_value: the default is called if callable, used as is
otherwise; when no default is set, a TextField resolves to the string
literal None. -/
def Field.default_value (f : Field) : PyVal :=
  let value : PyVal :=
    match f.default with
    | DefaultSpec.noneD => PyVal.none
    | DefaultSpec.lit v => v
    | DefaultSpec.producer g => g ()
  match f.default with
  | DefaultSpec.noneD => if isTextField f.kind then PyVal.str "None" else value
  | _ => value

/-- Field.to_sql: the column DDL, built exactly in the order of the
source: name and type, optional length, optional DEFAULT, NOT NULL,
UNIQUE, PRIMARY KEY, foreign key clause. -/
def Field.to_sql (f : Field) : String :=
  let sql := f.name ++ " " ++ dataType f.kind
  let sql := match f.max_length with
    | Option.some n => sql ++ "(" ++ toString n ++ ")"
    | Option.none => sql
  let sql := if pyTruthy f.server_default then sql ++ " DEFAULT " ++ pyStr f.server_default else sql
  let sql := if f.nullable then sql else sql ++ " NOT NULL"
  let sql := if f.unique then sql ++ " UNIQUE" else sql
  let sql := if f.primary_key then sql ++ " PRIMARY KEY" else sql
  match f.foreign_key with
  | Option.some fk => sql ++ " " ++ fk.to_sql
  | Option.none => sql

/-- Attribute lookup used by str.format on a Field: sql_column is the
only attribute the operator templates of the source reference. -/
def Field.fmt_attr (f : Field) (a : String) : Except PyError String :=
  if a = "sql_column" then Except.ok f.sql_column
  else Except.error (PyError.attributeError a)

/-- Render parsed format parts against a Field passed as the single
positional argument, left to right; a keyword replacement field raises
KeyError because format receives no keyword arguments. -/
def renderParts : List FmtPart → Field → Except PyError String
  | [], _ => Except.ok ""
  | p :: ps, f =>
    match p with
    | FmtPart.lit l =>
      (renderParts ps f).map (fun rest => l ++ rest)
    | FmtPart.posAttr a =>
      match f.fmt_attr a with
      | Except.ok s => (renderParts ps f).map (fun rest => s ++ rest)
      | Except.error e => Except.error e
    | FmtPart.kwarg k => Except.error (PyError.keyError k)

/-- template.format(self) for the operator templates of Field. -/
def pyFormat (template : String) (f : Field) : Except PyError String :=
  renderParts (parseFmtAux template.data) f

/-- The template of Field.__lt__. -/
def lt_template : String := "{.sql_column} < %s"

/-- The template of Field.__eq__; unlike its siblings the replacement
field has no leading dot, so it is a keyword replacement field. -/
def eq_template : String := "{sql_column} = %s"

/-- The template of Field.__ne__. -/
def ne_template : String := "{.sql_column} != %s"

/-- The template of Field.__gt__. -/
def gt_template : String := "{.sql_column} > %s"

/-- The template of Field.like. -/
def like_template : String := "{.sql_column} LIKE %s"

/-- The template of the Field.desc property. -/
def desc_template : String := "{.sql_column} DESC"

/-- Field.__lt__: the formatted fragment paired with the bound value. -/
def Field.lt (f : Field) (value : PyVal) : Except PyError (String × PyVal) :=
  (pyFormat lt_template f).map (fun s => (s, value))

/-- Field.__eq__: the formatted fragment paired with the bound value. -/
def Field.eq (f : Field) (value : PyVal) : Except PyError (String × PyVal) :=
  (pyFormat eq_template f).map (fun s => (s, value))

/-- Field.__ne__: the formatted fragment paired with the bound value. -/
def Field.ne (f : Field) (value : PyVal) : Except PyError (String × PyVal) :=
  (pyFormat ne_template f).map (fun s => (s, value))

/-- Field.__gt__: the formatted fragment paired with the bound value. -/
def Field.gt (f : Field) (value : PyVal) : Except PyError (String × PyVal) :=
  (pyFormat gt_template f).map (fun s => (s, value))

/-- Field.like: the formatted fragment paired with the bound value. -/
def Field.like (f : Field) (value : PyVal) : Except PyError (String × PyVal) :=
  (pyFormat like_template f).map (fun s => (s, value))

/-- Field.desc: a property returning a single string, no bound value. -/
def Field.desc (f : Field) : Except PyError String :=
  pyFormat desc_template f

/-- A named index over one column of one table. -/
structure Index where
  name : String
  table_name : String
  column_name : String
  unique : Bool
  deriving DecidableEq, Repr

/-- Index.to_sql: CREATE INDEX, with UNIQUE inserted when flagged. -/
def Index.to_sql (ix : Index) : String :=
  let sql := "CREATE"
  let sql := if ix.unique then sql ++ " UNIQUE" else sql
  let sql := sql ++ " INDEX " ++ ix.name ++ " ON " ++ ix.table_name
    ++ " (" ++ ix.column_name ++ ")"
  sql ++ ";"

/-- The filter of _collect_indexes: a field synthesizes an index when it
is not unique, not a primary key, not foreign keyed, and flagged index.
The Python test is: not any([unique, primary_key, foreign_key]) and index. -/
def qualifies (f : Field) : Bool :=
  !(f.unique || f.primary_key || f.foreign_key.isSome) && f.index

/-- A declared model class: the table name and the attached fields, in
declaration order.  pk_name and pk_field are derived below exactly as
the metaclass and Model.__init__ derive them, by the first field
flagged primary_key. -/
structure ModelClass where
  table_name : String
  fields : List Field

/-- The pk_field attribute bound by Model.__init__: the first field in
declaration order flagged primary_key; absent when no field is. -/
def ModelClass.pk_field (m : ModelClass) : Option Field :=
  m.fields.find? (fun f => f.primary_key)

/-- Model.table_sql: the CREATE TABLE statement, with the column
definitions joined by a comma, newline, and four spaces, inside the
triple-quoted template of the source (leading and trailing newline). -/
def ModelClass.table_sql (m : ModelClass) : String :=
  "\nCREATE TABLE " ++ m.table_name ++ " (\n    "
    ++ joinSep ",\n    " (m.fields.map Field.to_sql) ++ "\n);\n"

/-- The process-wide metadata registry: the ordered table mapping and
the index list. -/
structure MetaData where
  tables : List (String × ModelClass)
  indexes : List Index

/-- MetaData.index_sqls: all index statements joined by a semicolon and
a newline. -/
def MetaData.index_sqls (md : MetaData) : String :=
  joinSep ";\n" (md.indexes.map Index.to_sql)

/-- Driver operations create_all issues on its connection and cursor,
in order. -/
inductive DbOp
  | exec (sql : String)
  | commit
  | closeCursor
  | closeConnection
  deriving DecidableEq, Repr

/-- Recognize the commit operation. -/
def DbOp.isCommit : DbOp → Bool
  | DbOp.commit => true
  | _ => false

/-- MetaData.create_all: execute each table DDL in registration order,
then the joined index statements when that string is nonempty, then
commit and close cursor and connection. -/
def MetaData.create_all (md : MetaData) : List DbOp :=
  (md.tables.map (fun p => DbOp.exec (ModelClass.table_sql p.2)))
    ++ (let index_sql := md.index_sqls
        if index_sql != "" then [DbOp.exec index_sql] else [])
    ++ [DbOp.commit, DbOp.closeCursor, DbOp.closeConnection]

/-- ModelMetaClass.__init__ for one class declaration: when the table
name is truthy, attach every Field attribute of the (ordered) class
dictionary, register the class under its table name, and append one
Index for every qualifying field, carrying that field's unique flag.
The attrs list holds the Field-valued attributes of the class
dictionary in declaration order; other attributes are skipped by every
isinstance check of the source and are not modelled. -/
def modelDeclare (md : MetaData) (tablename : Option String)
    (attrs : List (String × FieldSpec)) : MetaData × Option ModelClass :=
  match tablename with
  | Option.none => (md, Option.none)
  | Option.some t =>
    if t = "" then (md, Option.none)
    else
      let fields := attrs.map (fun p => p.2.attach p.1 t)
      let cls : ModelClass := { table_name := t, fields := fields }
      let newIndexes := (fields.filter qualifies).map (fun f =>
        { name := "index_" ++ t ++ "_" ++ f.name, table_name := t,
          column_name := f.name, unique := f.unique : Index })
      ({ tables := odUpdate md.tables t cls,
         indexes := md.indexes ++ newIndexes }, Option.some cls)

/-- A model instance: its __dict__. -/
structure Instance where
  attrs : List (String × PyVal)
  deriving DecidableEq, Repr

/-- The value the Field descriptor produces for an instance: the stored
entry under _name when present, otherwise the default value of the
field (the class attribute under _name is the field itself).  The same
value results from getattr(instance, field._name, field.default_value())
in Model.sql_values. -/
def Model.field_value (inst : Instance) (f : Field) : PyVal :=
  match dictGet inst.attrs f.attrName with
  | Option.some v => v
  | Option.none => f.default_value

/-- getattr(instance, a) for an instance of a declared model: a data
descriptor (a Field whose _name is a) wins and reads the instance
dictionary with its default fallback; otherwise the instance dictionary
is consulted and a missing key raises AttributeError.  Class metadata
attributes such as table_name are not column names and are not
modelled. -/
def Model.getattr (m : ModelClass) (inst : Instance) (a : String) :
    Except PyError PyVal :=
  match m.fields.find? (fun f => f.attrName == a) with
  | Option.some f => Except.ok (Model.field_value inst f)
  | Option.none =>
    match dictGet inst.attrs a with
    | Option.some v => Except.ok v
    | Option.none => Except.error (PyError.attributeError a)

/-- setattr(instance, a, v): whether through the Field descriptor
(whose __set__ writes under _name, equal to a) or as a plain attribute,
the instance dictionary gains the entry a maps to v. -/
def Model.setattr (inst : Instance) (a : String) (v : PyVal) : Instance :=
  { attrs := odUpdate inst.attrs a v }

/-- Model.default_dict: the dictionary mapping each field's _name to
its default value, built in declaration order. -/
def Model.default_dict (m : ModelClass) : List (String × PyVal) :=
  m.fields.foldl (fun d f => odUpdate d f.attrName f.default_value) []

/-- Model.__init__: the instance dictionary starts from default_dict
and every keyword argument is assigned with setattr. -/
def Model.init (m : ModelClass) (kwargs : List (String × PyVal)) : Instance :=
  { attrs := kwargs.foldl (fun d p => odUpdate d p.1 p.2) (Model.default_dict m) }

/-- Model.sql_values: an ordered dictionary over the declared fields,
skipping the primary-key field (the identity test of the source is
attribute-name equality here, since class dictionary keys are unique)
and every field whose current value is None. -/
def Model.sql_values (m : ModelClass) (pkf : Field) (inst : Instance) :
    List (String × PyVal) :=
  m.fields.foldl (fun d f =>
    if f.attrName == pkf.attrName then d
    else
      let value := Model.field_value inst f
      if value == PyVal.none then d else odUpdate d f.name value) []

/-- Session.insert: read instance.pk_field (AttributeError when
Model.__init__ never bound it), build the INSERT statement over
sql_values, pass the values positionally, and assign the first column
of the fetched row to the primary-key attribute (_name).  The fetched
argument stands for the row cursor.fetchone() returns after the
RETURNING clause; None subscripted raises TypeError and an empty row
IndexError. -/
def Session.insert (m : ModelClass) (inst : Instance)
    (fetched : Option (List PyVal)) :
    Except PyError (String × List PyVal × Instance) :=
  match m.pk_field with
  | Option.none => Except.error (PyError.attributeError "pk_field")
  | Option.some pkf =>
    let pk_name := pkf.name
    let sql_values := Model.sql_values m pkf inst
    let columns := joinSep ", " (sql_values.map (fun p => p.1))
    let values := joinSep ", " (sql_values.map (fun _ => "%s"))
    let sql := "INSERT INTO " ++ m.table_name ++ " (" ++ columns
      ++ ") VALUES (" ++ values ++ ") RETURNING " ++ pk_name ++ ";"
    let args := sql_values.map (fun p => p.2)
    match fetched with
    | Option.none => Except.error (PyError.typeError "NoneType is not subscriptable")
    | Option.some [] => Except.error (PyError.indexError 0)
    | Option.some (pk_value :: _) =>
      Except.ok (sql, args, Model.setattr inst pkf.attrName pk_value)

/-- Session.update: read the current primary-key value through the
column name, build the SET list over sql_values, and append the
primary-key value as the last positional argument. -/
def Session.update (m : ModelClass) (inst : Instance) :
    Except PyError (String × List PyVal) :=
  match m.pk_field with
  | Option.none => Except.error (PyError.attributeError "pk_field")
  | Option.some pkf =>
    let pk_name := pkf.name
    match Model.getattr m inst pk_name with
    | Except.error e => Except.error e
    | Except.ok pk_value =>
      let sql_values := Model.sql_values m pkf inst
      let columns := joinSep ", " (sql_values.map (fun p => p.1 ++ " = %s"))
      let sql := "UPDATE " ++ m.table_name ++ " SET " ++ columns
        ++ " WHERE " ++ pk_name ++ " = %s;"
      Except.ok (sql, sql_values.map (fun p => p.2) ++ [pk_value])

/-- Session.delete: read the current primary-key value through the
column name (getattr uses field.name, not field._name), build the
DELETE statement with the value as its single argument, and set the
attribute named by the column name to None afterwards. -/
def Session.delete (m : ModelClass) (inst : Instance) :
    Except PyError (String × List PyVal × Instance) :=
  match m.pk_field with
  | Option.none => Except.error (PyError.attributeError "pk_field")
  | Option.some pkf =>
    let pk_name := pkf.name
    match Model.getattr m inst pk_name with
    | Except.error e => Except.error e
    | Except.ok pk_value =>
      let sql := "DELETE FROM " ++ m.table_name ++ " WHERE " ++ pk_name ++ " = %s"
      Except.ok (sql, [pk_value], Model.setattr inst pk_name PyVal.none)

/-- A pending query: the model type and the accumulated filter
expressions.  The session attribute of the source only carries the
connection and plays no part in statement building. -/
structure QuerySet where
  model : ModelClass
  exps : List (String × PyVal)

/-- The instance attributes QuerySet.__init__ assigns. -/
def QuerySet.instance_attrs : List String := ["session", "model", "exps"]

/-- QuerySet._build_sql: joins the accumulated fragments, then reads
self.models.fields; models is not among the attributes __init__
assigns (the similar attribute is named model, used one line above for
the table name), so the lookup raises AttributeError and the SELECT
construction below it is unreachable. -/
def QuerySet._build_sql (qs : QuerySet) : Except PyError (String × List PyVal) :=
  let table_name := qs.model.table_name
  let w := joinSep "AND " (qs.exps.map (fun e => e.1))
  let args := qs.exps.map (fun e => e.2)
  let w := if w != "" then "WHERE " ++ w else w
  if QuerySet.instance_attrs.contains "models" then
    let column_names := joinSep ", " (qs.model.fields.map (fun f =>
      f.name ++ " AS " ++ table_name ++ "_" ++ f.name))
    Except.ok ("SELECT " ++ column_names ++ " FROM " ++ table_name
      ++ " " ++ w ++ ";", args)
  else Except.error (PyError.attributeError "models")

/-- The hydration loop of QuerySet.__iter__: a fresh instance, then
setattr of each row value under the column name of the field at the
same position; a row longer than the field list raises IndexError. -/
def hydrate_go (m : ModelClass) (inst : Instance) (nu : Nat) :
    List PyVal → Except PyError Instance
  | [] => Except.ok inst
  | v :: rest =>
    match m.fields.get? nu with
    | Option.some f => hydrate_go m (Model.setattr inst f.name v) (nu + 1) rest
    | Option.none => Except.error (PyError.indexError nu)

/-- QuerySet.__iter__: build the statement (which raises), then hydrate
one instance per fetched row. -/
def QuerySet.iter (qs : QuerySet) (rows : List (List PyVal)) :
    Except PyError (List Instance) :=
  match qs._build_sql with
  | Except.error e => Except.error e
  | Except.ok _ =>
    rows.mapM (fun row => hydrate_go qs.model (Model.init qs.model []) 0 row)

/-- Spec-side renderer of the documented column DDL: the clauses in the
documented fixed order, each contributing the empty string when its
condition is off.  Written from the documentation for comparison with
Field.to_sql. -/
def toSqlSpec (f : Field) : String :=
  f.name ++ " " ++ dataType f.kind
    ++ (match f.max_length with
        | Option.some n => "(" ++ toString n ++ ")"
        | Option.none => "")
    ++ (if pyTruthy f.server_default then " DEFAULT " ++ pyStr f.server_default else "")
    ++ (if f.nullable then "" else " NOT NULL")
    ++ (if f.unique then " UNIQUE" else "")
    ++ (if f.primary_key then " PRIMARY KEY" else "")
    ++ (match f.foreign_key with
        | Option.some fk => " " ++ fk.to_sql
        | Option.none => "")

/-- Spec-side description of the columns an INSERT or UPDATE touches:
the declared fields that are not the primary-key field and whose
current value is not None, in declaration order. -/
def kept_fields (m : ModelClass) (pkf : Field) (inst : Instance) : List Field :=
  m.fields.filter (fun f =>
    f.attrName != pkf.attrName && Model.field_value inst f != PyVal.none)

/-- Test fixture: a text column named name on table person, as the
declaration name = TextField() attaches it. -/
def nameF : Field :=
  { kind := FieldKind.text, name := "name", attrName := "name",
    max_length := Option.none, default := DefaultSpec.noneD,
    server_default := PyVal.none, unique := false, nullable := true,
    index := false, primary_key := false, foreign_key := Option.none,
    table_name := "person", sql_column := "person.name" }

/-- Test fixture: a serial primary-key column named id on table person. -/
def idF : Field :=
  { kind := FieldKind.auto, name := "id", attrName := "id",
    max_length := Option.none, default := DefaultSpec.noneD,
    server_default := PyVal.none, unique := false, nullable := true,
    index := false, primary_key := true, foreign_key := Option.none,
    table_name := "person", sql_column := "person.id" }

/-- Test fixture: the person model with columns id and name. -/
def personM : ModelClass := { table_name := "person", fields := [idF, nameF] }

/-- Test fixture: a person instance constructed with name bob. -/
def inst0 : Instance := Model.init personM [("name", PyVal.str "bob")]

/-- Test fixture: a model declared without any primary-key field. -/
def noPkM : ModelClass := { table_name := "person", fields := [nameF] }

/-- Test fixture: a primary-key field whose explicit column name
person_id differs from its declaration attribute name id. -/
def pkNamedF : Field :=
  { kind := FieldKind.auto, name := "person_id", attrName := "id",
    max_length := Option.none, default := DefaultSpec.noneD,
    server_default := PyVal.none, unique := false, nullable := true,
    index := false, primary_key := true, foreign_key := Option.none,
    table_name := "person", sql_column := "person.person_id" }

/-- Test fixture: a model whose primary-key column name differs from
the attribute that declares it. -/
def pkNamedM : ModelClass := { table_name := "person", fields := [pkNamedF] }

/-- Test fixture: an empty metadata registry. -/
def md0 : MetaData := { tables := [], indexes := [] }

/-- Test fixture: a plain-indexed text field specification. -/
def nickSpec : FieldSpec :=
  FieldSpec.init FieldKind.text Option.none Option.none DefaultSpec.noneD
    PyVal.none false true true false Option.none

/-- Test fixture: nameF with a zero-argument producer default. -/
def fldProd : Field := { nameF with default := DefaultSpec.producer (fun _ => PyVal.int 3) }

/-- Test fixture: nameF with a literal default. -/
def fldLit : Field := { nameF with default := DefaultSpec.lit (PyVal.str "x") }

/-- Test fixture: the index the declaration of a model with one
plain-indexed field named nick on table person synthesizes. -/
def ix0 : Index :=
  { name := "index_person_nick", table_name := "person",
    column_name := "nick", unique := false }

/-- Dictionary assignment of a fresh key appends the pair. -/
theorem odUpdate_of_no_key {α : Type} (d : List (String × α)) (k : String) (v : α)
    (h : d.any (fun p => p.1 == k) = false) : odUpdate d k v = d ++ [(k, v)] := by
  simp [odUpdate, h]

/-- Replacing the value stored under a present key makes that key the
first hit of a later lookup. -/
theorem find?_map_replace {α : Type} (k : String) (v : α) :
    ∀ d : List (String × α), d.any (fun p => p.1 == k) = true →
      (d.map (fun p => if p.1 == k then (k, v) else p)).find? (fun p => p.1 == k)
        = Option.some (k, v)
  | [], h => by simp at h
  | p :: d, h => by
    by_cases hp : p.1 == k
    · simp [List.find?, hp]
    · rw [Bool.not_eq_true] at hp
      simp only [List.any_cons, hp, Bool.false_or] at h
      rw [List.map_cons, if_neg (by simp [hp]),
        List.find?_cons_of_neg _ (by simp [hp])]
      exact find?_map_replace k v d h

/-- Appending a pair with an absent key makes it findable. -/
theorem find?_append_key {α : Type} (k : String) (v : α) :
    ∀ d : List (String × α), d.any (fun p => p.1 == k) = false →
      (d ++ [(k, v)]).find? (fun p => p.1 == k) = Option.some (k, v)
  | [], _ => by simp [List.find?]
  | p :: d, h => by
    simp only [List.any_cons, Bool.or_eq_false_iff] at h
    rw [List.cons_append, List.find?_cons_of_neg _ (by simp [h.1])]
    exact find?_append_key k v d h.2

/-- Looking up the key just assigned returns the assigned value. -/
theorem dictGet_odUpdate_self {α : Type} (d : List (String × α)) (k : String) (v : α) :
    dictGet (odUpdate d k v) k = Option.some v := by
  unfold odUpdate dictGet
  by_cases h : d.any (fun p => p.1 == k)
  · simp only [h, if_true, find?_map_replace k v d h, Option.map_some']
  · rw [Bool.not_eq_true] at h
    simp only [h, Bool.false_eq_true, if_false, find?_append_key k v d h, Option.map_some']

/-- Reading an attribute right after setting it yields the set value,
whether the attribute is backed by a Field descriptor or not. -/
theorem getattr_setattr (m : ModelClass) (inst : Instance) (a : String) (v : PyVal) :
    Model.getattr m (Model.setattr inst a v) a = Except.ok v := by
  unfold Model.getattr Model.setattr
  cases hf : m.fields.find? (fun f => f.attrName == a) with
  | none => simp [dictGet_odUpdate_self]
  | some f =>
    have hb := List.find?_some hf
    have ha : f.attrName = a := by simpa using hb
    simp [Model.field_value, ha, dictGet_odUpdate_self]

/-- The fold building sql_values, run from any accumulator disjoint
from the kept column names, appends exactly one entry per kept field,
in declaration order, provided the kept column names are distinct. -/
theorem sql_values_go (pkf : Field) (inst : Instance) :
    ∀ (fs : List Field) (d : List (String × PyVal)),
      (((fs.filter (fun f =>
          f.attrName != pkf.attrName && Model.field_value inst f != PyVal.none)).map
            (fun f => f.name)).Nodup) →
      (∀ f ∈ fs.filter (fun f =>
          f.attrName != pkf.attrName && Model.field_value inst f != PyVal.none),
        d.any (fun p => p.1 == f.name) = false) →
      fs.foldl (fun d f =>
        if f.attrName == pkf.attrName then d
        else
          let value := Model.field_value inst f
          if value == PyVal.none then d else odUpdate d f.name value) d
      = d ++ (fs.filter (fun f =>
          f.attrName != pkf.attrName && Model.field_value inst f != PyVal.none)).map
            (fun f => (f.name, Model.field_value inst f))
  | [], d, _, _ => by simp
  | f :: fs, d, hnd, hdisj => by
    by_cases h1 : f.attrName == pkf.attrName
    · have hk : (f.attrName != pkf.attrName && Model.field_value inst f != PyVal.none) = false := by
        simp [bne, h1]
      rw [List.foldl_cons, if_pos h1, List.filter_cons_of_neg (by simp [hk])]
      exact sql_values_go pkf inst fs d
        (by rwa [List.filter_cons_of_neg (by simp [hk])] at hnd)
        (by rw [List.filter_cons_of_neg (by simp [hk])] at hdisj; exact hdisj)
    · by_cases h2 : Model.field_value inst f == PyVal.none
      · have hk : (f.attrName != pkf.attrName && Model.field_value inst f != PyVal.none) = false := by
          simp [bne, h2]
        rw [List.foldl_cons, if_neg h1]
        simp only [if_pos h2]
        rw [List.filter_cons_of_neg (by simp [hk])]
        exact sql_values_go pkf inst fs d
          (by rwa [List.filter_cons_of_neg (by simp [hk])] at hnd)
          (by rw [List.filter_cons_of_neg (by simp [hk])] at hdisj; exact hdisj)
      · have hk : (f.attrName != pkf.attrName && Model.field_value inst f != PyVal.none) = true := by
          simp [bne, h1, h2]
        rw [List.filter_cons_of_pos (by simp [hk])] at hnd hdisj ⊢
        rw [List.foldl_cons, if_neg h1]
        simp only [if_neg h2]
        rw [odUpdate_of_no_key _ _ _ (hdisj f (List.mem_cons_self _ _))]
        rw [sql_values_go pkf inst fs (d ++ [(f.name, Model.field_value inst f)])
          (by rw [List.map_cons, List.nodup_cons] at hnd; exact hnd.2)
          ?_]
        · simp
        · intro g hg
          rw [List.any_append]
          have hgd := hdisj g (List.mem_cons_of_mem _ hg)
          have hne : g.name ≠ f.name := by
            rw [List.map_cons, List.nodup_cons] at hnd
            intro he
            exact hnd.1 (he ▸ List.mem_map_of_mem (fun f => f.name) hg)
          simp [hgd]
          exact fun he => hne he.symm

/-- Model.sql_values is the kept fields paired with their current
values, in declaration order, when column names are distinct. -/
theorem sql_values_eq (m : ModelClass) (pkf : Field) (inst : Instance)
    (h2 : (m.fields.map (fun f => f.name)).Nodup) :
    Model.sql_values m pkf inst
      = (kept_fields m pkf inst).map (fun f => (f.name, Model.field_value inst f)) := by
  have hnd : ((kept_fields m pkf inst).map (fun f => f.name)).Nodup :=
    List.Nodup.sublist (List.Sublist.map _ (List.filter_sublist m.fields)) h2
  have h := sql_values_go pkf inst m.fields []
    (by simpa [kept_fields] using hnd)
    (by intro f _; rfl)
  simpa [Model.sql_values, kept_fields] using h

/-- Bound inequality on a nonempty join: the first part fits inside. -/
theorem joinSep_cons_length (sep x : String) (xs : List String) :
    x.length ≤ (joinSep sep (x :: xs)).length := by
  cases xs with
  | nil => simp [joinSep]
  | cons y ys =>
    rw [joinSep]
    simp [String.length_append]
    omega

/-- Every index statement is nonempty: it ends with a semicolon. -/
theorem index_to_sql_length_pos (ix : Index) : 0 < ix.to_sql.length := by
  unfold Index.to_sql
  simp [String.length_append]
  exact Or.inr (by decide)

/-- The joined index batch is the empty string exactly when no index is
registered, which is the truthiness test create_all performs. -/
theorem index_sqls_empty_iff (md : MetaData) : md.index_sqls = "" ↔ md.indexes = [] := by
  unfold MetaData.index_sqls
  cases hx : md.indexes with
  | nil => simp [joinSep]
  | cons ix rest =>
    simp only [List.map_cons]
    constructor
    · intro habs
      have h1 := joinSep_cons_length ";\n" ix.to_sql (rest.map Index.to_sql)
      rw [habs] at h1
      have h2 := index_to_sql_length_pos ix
      simp at h1
      omega
    · intro habs
      exact absurd habs (by simp)

/-- Table DDL executions are never commits. -/
theorem exec_filter_commit (l : List (String × ModelClass)) :
    (l.map (fun p => DbOp.exec (ModelClass.table_sql p.2))).filter DbOp.isCommit = [] := by
  induction l with
  | nil => rfl
  | cons p l ih => simpa [DbOp.isCommit] using ih

/-- Claim C1: evaluation of the comparison-expression builders on an
attached field.  The builders for less, not-equal, greater and LIKE
return the pair of a fragment holding exactly one positional
placeholder and the bound value, and desc returns a single string with
no placeholder; the equality builder, however, raises KeyError, because
its template names the keyword replacement field sql_column instead of
accessing the attribute, so the claim fails on the equality operator. -/
theorem comparison_builders_eval :
    Field.lt nameF (PyVal.int 1) = Except.ok ("person.name < %s", PyVal.int 1)
    ∧ Field.ne nameF (PyVal.int 1) = Except.ok ("person.name != %s", PyVal.int 1)
    ∧ Field.gt nameF (PyVal.int 1) = Except.ok ("person.name > %s", PyVal.int 1)
    ∧ Field.like nameF (PyVal.str "a%") = Except.ok ("person.name LIKE %s", PyVal.str "a%")
    ∧ Field.desc nameF = Except.ok "person.name DESC"
    ∧ countPS ("person.name < %s").data = 1
    ∧ countPS ("person.name != %s").data = 1
    ∧ countPS ("person.name > %s").data = 1
    ∧ countPS ("person.name LIKE %s").data = 1
    ∧ countPS ("person.name DESC").data = 0
    ∧ Field.eq nameF (PyVal.int 1) = Except.error (PyError.keyError "sql_column") :=
  ⟨rfl, rfl, rfl, rfl, rfl, rfl, rfl, rfl, rfl, rfl, rfl⟩

/-- Claim C2: iterating any QuerySet never reaches the SELECT: building
the statement reads the attribute models, which QuerySet.__init__ does
not assign (the attribute is named model), so every iteration raises
AttributeError instead of executing the query and yielding hydrated
instances as the claim states. -/
theorem queryset_iter_attribute_error :
    (∀ qs : QuerySet, qs._build_sql = Except.error (PyError.attributeError "models"))
    ∧ (∀ (qs : QuerySet) (rows : List (List PyVal)),
        qs.iter rows = Except.error (PyError.attributeError "models")) :=
  ⟨fun _ => rfl, fun _ _ => rfl⟩

/-- Claim C3, counterexample: on a concrete model with no primary-key
field, insert, update and delete all fail with AttributeError for the
missing pk_field attribute, which is not the MissingPrimaryKeyError the
claim names (no such error type exists in the code). -/
theorem no_pk_write_counterexample :
    Session.insert noPkM (Model.init noPkM []) (Option.some [PyVal.int 1])
      = Except.error (PyError.attributeError "pk_field")
    ∧ Session.update noPkM (Model.init noPkM [])
      = Except.error (PyError.attributeError "pk_field")
    ∧ Session.delete noPkM (Model.init noPkM [])
      = Except.error (PyError.attributeError "pk_field")
    ∧ PyError.attributeError "pk_field" ≠ PyError.missingPrimaryKeyError :=
  ⟨rfl, rfl, rfl, by decide⟩

/-- Claim C3, amended: for every model declared with no field flagged
primary key, every write operation that needs a primary key (insert,
update, delete) fails with AttributeError for the unbound pk_field
attribute, rather than silently succeeding. -/
theorem no_pk_write_attribute_error (m : ModelClass) (inst : Instance)
    (fetched : Option (List PyVal)) (h : m.pk_field = Option.none) :
    Session.insert m inst fetched = Except.error (PyError.attributeError "pk_field")
    ∧ Session.update m inst = Except.error (PyError.attributeError "pk_field")
    ∧ Session.delete m inst = Except.error (PyError.attributeError "pk_field") := by
  unfold Session.insert Session.update Session.delete
  rw [h]
  exact ⟨rfl, rfl, rfl⟩

/-- Witness for the amended claim C3: the concrete no-primary-key model. -/
theorem no_pk_write_attribute_error_witness :
    Session.insert noPkM inst0 (Option.some [PyVal.int 1])
      = Except.error (PyError.attributeError "pk_field")
    ∧ Session.update noPkM inst0 = Except.error (PyError.attributeError "pk_field")
    ∧ Session.delete noPkM inst0 = Except.error (PyError.attributeError "pk_field") :=
  no_pk_write_attribute_error noPkM inst0 (Option.some [PyVal.int 1]) rfl

/-- Claim C4: for a model with a primary-key field (and distinct column
names), insert builds INSERT INTO table (columns) VALUES (placeholders)
RETURNING pk, where the column list is exactly the non-primary-key
fields whose current value is not None, in declaration order; the bound
arguments are those values in the same order; and the primary-key
attribute is afterwards set to the first column of the fetched row. -/
theorem insert_statement_shape (m : ModelClass) (pkf : Field) (inst : Instance)
    (pkv : PyVal) (rest : List PyVal)
    (h1 : m.pk_field = Option.some pkf)
    (h2 : (m.fields.map (fun f => f.name)).Nodup) :
    Session.insert m inst (Option.some (pkv :: rest))
      = Except.ok ("INSERT INTO " ++ m.table_name ++ " ("
          ++ joinSep ", " ((kept_fields m pkf inst).map (fun f => f.name))
          ++ ") VALUES ("
          ++ joinSep ", " ((kept_fields m pkf inst).map (fun _ => "%s"))
          ++ ") RETURNING " ++ pkf.name ++ ";",
        (kept_fields m pkf inst).map (fun f => Model.field_value inst f),
        Model.setattr inst pkf.attrName pkv)
    ∧ Model.getattr m (Model.setattr inst pkf.attrName pkv) pkf.attrName
        = Except.ok pkv := by
  constructor
  · unfold Session.insert
    rw [h1]
    dsimp only
    rw [sql_values_eq m pkf inst h2]
    simp only [List.map_map]
    rfl
  · exact getattr_setattr m inst pkf.attrName pkv

/-- Witness for claim C4: inserting a concrete person with name bob and
an unset serial primary key produces the documented statement, binds
only the name, and stores the returned key 7 on the instance. -/
theorem insert_statement_shape_witness :
    Session.insert personM inst0 (Option.some [PyVal.int 7])
      = Except.ok ("INSERT INTO person (name) VALUES (%s) RETURNING id;",
          [PyVal.str "bob"],
          { attrs := [("id", PyVal.int 7), ("name", PyVal.str "bob")] })
    ∧ Model.getattr personM (Model.setattr inst0 "id" (PyVal.int 7)) "id"
      = Except.ok (PyVal.int 7) := by
  have h := insert_statement_shape personM idF inst0 (PyVal.int 7) [] rfl (by decide)
  exact ⟨h.1.trans (by rfl), h.2⟩

/-- Claim C5: default_value calls the default when it is a
zero-argument producer, uses it literally otherwise, and for a
text-typed field with no default set resolves to the four-character
string literal None. -/
theorem default_value_policy :
    (∀ (f : Field) (g : Unit → PyVal),
      f.default = DefaultSpec.producer g → f.default_value = g ())
    ∧ (∀ (f : Field) (v : PyVal), f.default = DefaultSpec.lit v → f.default_value = v)
    ∧ (∀ f : Field, f.default = DefaultSpec.noneD → isTextField f.kind = true →
        f.default_value = PyVal.str "None" ∧ ("None").length = 4) := by
  refine ⟨?_, ?_, ?_⟩
  · intro f g h
    unfold Field.default_value
    rw [h]
  · intro f v h
    unfold Field.default_value
    rw [h]
  · intro f h h2
    unfold Field.default_value
    rw [h]
    exact ⟨by simp [h2], rfl⟩

/-- Witness for claim C5: a producer default is invoked, a literal
default is used as is, and the defaultless text field resolves to the
string None. -/
theorem default_value_policy_witness :
    fldProd.default_value = PyVal.int 3
    ∧ fldLit.default_value = PyVal.str "x"
    ∧ nameF.default_value = PyVal.str "None" :=
  ⟨default_value_policy.1 fldProd (fun _ => PyVal.int 3) rfl,
   default_value_policy.2.1 fldLit (PyVal.str "x") rfl,
   (default_value_policy.2.2 nameF rfl rfl).1⟩

/-- Claim C6: to_sql renders the column definition in the fixed clause
order name, type, optional length, DEFAULT, NOT NULL, UNIQUE, PRIMARY
KEY, foreign-key clause, and a boolean server default is stored by the
constructor as the literal keyword TRUE or FALSE. -/
theorem to_sql_clause_order :
    (∀ f : Field, f.to_sql = toSqlSpec f)
    ∧ (∀ (kind : FieldKind) (nm : Option String) (ml : Option Nat) (d : DefaultSpec)
         (u nl ixf pk : Bool) (fk : Option ForeignKey) (a t : String) (b : Bool),
        ((FieldSpec.init kind nm ml d (PyVal.bool b) u nl ixf pk fk).attach a t).server_default
          = PyVal.str (if b then "TRUE" else "FALSE")) := by
  constructor
  · intro f
    obtain ⟨kind, name, attrName, ml, dflt, sd, u, nl, ix, pk, fk, tn, sc⟩ := f
    simp only [Field.to_sql, toSqlSpec]
    cases ml <;> by_cases h : pyTruthy sd <;> cases nl <;> cases u <;> cases pk <;> cases fk <;>
      (simp [h, String.append_empty, String.append_assoc]; try rfl)
  · intro kind nm ml d u nl ixf pk fk a t b
    cases b <;> rfl

/-- Claim C7, counterexample: on a model whose primary-key column name
person_id differs from its declaring attribute id, delete raises
AttributeError while reading the current key through the column name,
so it neither builds the DELETE statement nor clears the attribute. -/
theorem delete_named_pk_counterexample :
    Session.delete pkNamedM (Model.init pkNamedM [])
      = Except.error (PyError.attributeError "person_id") :=
  rfl

/-- Claim C7, amended: for every instance of a model whose primary-key
column name equals its declaring attribute name, delete builds DELETE
FROM table WHERE pk-column = placeholder with the current primary-key
value as the single bound argument and afterwards sets the in-memory
primary-key attribute to None; when the column name differs from the
attribute name the lookup of the current value raises AttributeError
instead. -/
theorem delete_clears_pk (m : ModelClass) (pkf : Field) (inst : Instance) (v : PyVal)
    (h1 : m.pk_field = Option.some pkf)
    (h2 : pkf.name = pkf.attrName)
    (h3 : Model.getattr m inst pkf.name = Except.ok v) :
    Session.delete m inst
      = Except.ok ("DELETE FROM " ++ m.table_name ++ " WHERE " ++ pkf.name ++ " = %s",
          [v], Model.setattr inst pkf.name PyVal.none)
    ∧ Model.getattr m (Model.setattr inst pkf.name PyVal.none) pkf.attrName
        = Except.ok PyVal.none := by
  constructor
  · unfold Session.delete
    rw [h1]
    dsimp only
    rw [h3]
  · rw [h2]
    exact getattr_setattr m inst pkf.attrName PyVal.none

/-- Witness for the amended claim C7: deleting a concrete person with
key 5 issues the documented statement with the key as the single bound
argument and clears the id attribute. -/
theorem delete_clears_pk_witness :
    Session.delete personM (Model.init personM [("id", PyVal.int 5)])
      = Except.ok ("DELETE FROM person WHERE id = %s", [PyVal.int 5],
          { attrs := [("id", PyVal.none), ("name", PyVal.str "None")] })
    ∧ Model.getattr personM
        (Model.setattr (Model.init personM [("id", PyVal.int 5)]) "id" PyVal.none) "id"
      = Except.ok PyVal.none := by
  have h := delete_clears_pk personM idF (Model.init personM [("id", PyVal.int 5)])
    (PyVal.int 5) rfl rfl rfl
  exact ⟨h.1.trans (by rfl), h.2⟩

/-- Claim C8: create_all executes one CREATE TABLE statement per
registered model in registration order, then the accumulated index
statements as one batched execution, skipped exactly when no index is
registered, and commits exactly once, after every execution. -/
theorem create_all_trace (md : MetaData) :
    md.create_all
      = md.tables.map (fun p => DbOp.exec (ModelClass.table_sql p.2))
        ++ (if md.indexes.isEmpty then [] else [DbOp.exec md.index_sqls])
        ++ [DbOp.commit, DbOp.closeCursor, DbOp.closeConnection]
    ∧ (md.create_all.filter DbOp.isCommit).length = 1 := by
  have heq : md.create_all
      = md.tables.map (fun p => DbOp.exec (ModelClass.table_sql p.2))
        ++ (if md.indexes.isEmpty then [] else [DbOp.exec md.index_sqls])
        ++ [DbOp.commit, DbOp.closeCursor, DbOp.closeConnection] := by
    unfold MetaData.create_all
    by_cases h : md.indexes = []
    · have hs : md.index_sqls = "" := (index_sqls_empty_iff md).mpr h
      simp [hs, h]
    · have hs : ¬ md.index_sqls = "" := fun he => h ((index_sqls_empty_iff md).mp he)
      simp [hs, h, List.isEmpty_iff]
  refine ⟨heq, ?_⟩
  rw [heq]
  by_cases h : md.indexes.isEmpty <;>
    simp [h, List.filter_append, exec_filter_commit, DbOp.isCommit]

/-- Claim C9: declaring a model on a (truthy) table name appends to the
registry exactly one index per qualifying field, that is per field
flagged index and not unique, not primary key and not foreign keyed,
named index_table_column over that table and column, in declaration
order, and appends nothing else. -/
theorem index_synthesis_eq (md : MetaData) (t : String)
    (attrs : List (String × FieldSpec)) (h : ¬ t = "") :
    ((modelDeclare md (Option.some t) attrs).1).indexes
      = md.indexes
        ++ ((attrs.map (fun p => p.2.attach p.1 t)).filter qualifies).map (fun f =>
            { name := "index_" ++ t ++ "_" ++ f.name, table_name := t,
              column_name := f.name, unique := f.unique : Index }) := by
  simp [modelDeclare, h]

/-- Witness for claim C9: declaring one model with one plain-indexed
field named nick on table person registers exactly the index named
index_person_nick. -/
theorem index_synthesis_eq_witness :
    ((modelDeclare md0 (Option.some "person") [("nick", nickSpec)]).1).indexes
      = [ix0] := by
  have h := index_synthesis_eq md0 "person" [("nick", nickSpec)] (by decide)
  exact h.trans (by rfl)

/-- Claim C10: every index a model declaration appends to the registry
has its uniqueness flag false (a unique field never qualifies and the
field's own flag is copied), and its statement is a plain CREATE INDEX,
never CREATE UNIQUE INDEX. -/
theorem declared_indexes_not_unique (md : MetaData) (tn : Option String)
    (attrs : List (String × FieldSpec)) (ix : Index)
    (hmem : ix ∈ ((modelDeclare md tn attrs).1).indexes) :
    ix ∈ md.indexes
    ∨ (ix.unique = false
       ∧ ix.to_sql = "CREATE INDEX " ++ ix.name ++ " ON " ++ ix.table_name
           ++ " (" ++ ix.column_name ++ ");") := by
  cases tn with
  | none => exact Or.inl hmem
  | some t =>
    by_cases ht : t = ""
    · simp only [modelDeclare, ht, if_pos] at hmem
      exact Or.inl hmem
    · simp [modelDeclare, ht] at hmem
      rcases hmem with h | h
      · exact Or.inl h
      · right
        obtain ⟨f, hf, he⟩ := h
        have hq : qualifies f = true := hf.2
        have hu : f.unique = false := by
          simp [qualifies] at hq
          exact hq.1.1.1
        rw [← he]
        refine ⟨hu, ?_⟩
        simp only [Index.to_sql, hu, Bool.false_eq_true, if_false]
        rw [String.append_assoc]
        rfl

/-- Witness for claim C10: the synthesized index of the concrete
declaration is not unique and renders as a plain CREATE INDEX. -/
theorem declared_indexes_not_unique_witness :
    ix0.unique = false
    ∧ ix0.to_sql = "CREATE INDEX index_person_nick ON person (nick);" := by
  have h := declared_indexes_not_unique md0 (Option.some "person") [("nick", nickSpec)]
    ix0 (by decide)
  rcases h with h | h
  · exact absurd h (by simp [md0])
  · exact ⟨h.1, h.2.trans (by rfl)⟩

end Bustard
